import Mathlib

/-!
Shallow embedding of `src/reactor/simulation.go` (package `reactor`).

Modelling choices:
* Go `float64` values are modelled as exact rationals `ℚ`.
* `rand.Float64()` draws (uniform in `[0,1)`) are passed explicitly as
  parameters `u1` (base-load random walk) and `u2` (next-spike scheduling);
  `u2` is consumed only on the tick that starts a spike.
* The `ReactorStatus` bitset is a `ℕ` manipulated with `&&&`/`|||`/`Nat.ldiff`,
  mirroring Go's `&`, `|`, `&^`.
* The simulation constants are fields of `Reactor` in Go, set once in
  `NewReactor` and never written afterwards; they are top-level constants here.
* Locking (`sync.RWMutex`) is dropped: every operation is a whole-state
  function, which is exactly the atomicity the lock provides.
* `FuelRod` is a Go pointer.  For the state-evolution claims the rod is
  modelled by value (`Option FuelRod`), which is observationally equivalent
  for the evolution of `r.state`.  A second, heap-explicit model (`HReactor`
  below) keeps the pointer indirection to settle the snapshot-aliasing claim.
-/

namespace Sim

/-- Status flag bit values, from the `const` block of simulation.go. -/
def StatusTempLow : ℕ := 1
def StatusOverheat : ℕ := 2
def StatusOutputLow : ℕ := 4
def StatusOutputHigh : ℕ := 8
def StatusFuelLow : ℕ := 16
def StatusFuelOut : ℕ := 32
def StatusMeltdown : ℕ := 64
def StatusScram : ℕ := 128

/-- Simulation constants, as initialised in `NewReactor`. -/
def MAX_TEMP : ℚ := 1000
def MAX_POWER_OUTPUT : ℚ := 5000
def MELTDOWN_TEMP : ℚ := 900
def OVERHEAT_TEMP : ℚ := 600
def LOW_TEMP : ℚ := 200
def OPTIMAL_TEMP : ℚ := 350
def FUEL_CONSUMPTION_RATE : ℚ := 0.05
def HEAT_GENERATION_RATE : ℚ := 800
def AMBIENT_TEMP_DISSIPATION : ℚ := 0.05
def TURBINE_POWER_FACTOR : ℚ := 8
def LOW_FUEL_THRESHOLD : ℚ := 20

/-- Go helper `min` on float64 (total order on ℚ, no NaN). -/
def rmin (a b : ℚ) : ℚ := if a < b then a else b

/-- Go helper `max` on float64. -/
def rmax (a b : ℚ) : ℚ := if a > b then a else b

/-- Go helper `clamp`. -/
def clamp (v lo hi : ℚ) : ℚ := if v < lo then lo else if v > hi then hi else v

/-- Go `math.Round`: round half away from zero. -/
def goRound (x : ℚ) : ℚ := if 0 ≤ x then (⌊x + 1/2⌋ : ℤ) else (⌈x - 1/2⌉ : ℤ)

/-- `type FuelRod struct { Condition float64 }`. -/
structure FuelRod where
  Condition : ℚ
deriving DecidableEq, Repr

/-- `type ReactorState struct`.  `FuelRod` is `*FuelRod` in Go; here by value. -/
structure ReactorState where
  IsPoweredOn : Bool
  IsAutoControl : Bool
  Temperature : ℚ
  FissionRate : ℚ
  TurbineOutput : ℚ
  PowerOutput : ℚ
  PowerLoad : ℚ
  FuelRod : Option FuelRod
  Status : ℕ
deriving DecidableEq, Repr

/-- `type Reactor struct`: the state plus the grid-load sub-state. -/
structure Reactor where
  state : ReactorState
  baseLoad : ℚ
  spikeTimer : ℚ
  isSpiking : Bool
  spikeElapsed : ℚ
  spikeDuration : ℚ
  spikeMagnitude : ℚ
deriving DecidableEq, Repr

/-- `NewReactor`: the initial reactor, with the balanced initial configuration. -/
def NewReactor : Reactor :=
  let initialLoad : ℚ := 1000
  let initialTemp : ℚ := OPTIMAL_TEMP
  let initialTurbine : ℚ :=
    initialLoad / (initialTemp / 100 * (initialTemp / OVERHEAT_TEMP) * TURBINE_POWER_FACTOR)
  let heatConsumed : ℚ :=
    initialLoad / TURBINE_POWER_FACTOR + initialTemp * AMBIENT_TEMP_DISSIPATION
  let initialFission : ℚ := heatConsumed * 100 / HEAT_GENERATION_RATE
  { state :=
      { IsPoweredOn := true
        IsAutoControl := true
        Temperature := initialTemp
        FissionRate := initialFission
        TurbineOutput := initialTurbine
        PowerOutput := initialLoad
        PowerLoad := initialLoad
        FuelRod := some ⟨100⟩
        Status := 0 }
    baseLoad := initialLoad
    spikeTimer := 10
    isSpiking := false
    spikeElapsed := 0
    spikeDuration := 10
    spikeMagnitude := 1000 }

/-- `runAutoControlLocked`: proportional feedback on turbine output and fission rate. -/
def runAutoControlLocked (s : ReactorState) : ReactorState :=
  let powerError := s.PowerLoad - s.PowerOutput
  let turbineOutput := s.TurbineOutput + powerError * 0.01
  let tempError := OPTIMAL_TEMP - s.Temperature
  let fissionRate := s.FissionRate + tempError * 0.002
  { s with
    FissionRate := clamp fissionRate 0 100
    TurbineOutput := clamp turbineOutput 0 100 }

/-- `updateStatusLocked`: recompute the status bitset (Scram bit preserved),
and discard the fuel rod when it is absent or exhausted. -/
def updateStatusLocked (s : ReactorState) : ReactorState :=
  let current0 := s.Status &&& StatusScram
  let current1 :=
    if MELTDOWN_TEMP ≤ s.Temperature then current0 ||| StatusMeltdown
    else if OVERHEAT_TEMP ≤ s.Temperature then current0 ||| StatusOverheat
    else if s.Temperature < LOW_TEMP ∧ s.IsPoweredOn = true ∧ 0 < s.PowerOutput then
      current0 ||| StatusTempLow
    else current0
  let powerDifference := s.PowerOutput - s.PowerLoad
  let current2 :=
    if s.PowerLoad * 0.2 < powerDifference ∧ 100 < s.PowerLoad then
      current1 ||| StatusOutputHigh
    else current1
  let current3 :=
    if powerDifference < -s.PowerLoad * 0.2 ∧ 100 < s.PowerLoad then
      current2 ||| StatusOutputLow
    else current2
  match s.FuelRod with
  | none => { s with Status := current3 ||| StatusFuelOut, FuelRod := none }
  | some rod =>
      if rod.Condition ≤ 0 then
        { s with Status := current3 ||| StatusFuelOut, FuelRod := none }
      else if rod.Condition < LOW_FUEL_THRESHOLD then
        { s with Status := current3 ||| StatusFuelLow }
      else
        { s with Status := current3 }

/-- `updateGridLoad`: random walk of the base load plus the spike generator;
`u1`, `u2` are the two `rand.Float64()` draws (`u2` used only on spike start). -/
def updateGridLoad (u1 u2 delta : ℚ) (r : Reactor) : Reactor :=
  let change := u1 * 24 - 12
  let baseLoad := clamp (r.baseLoad + change) 800 2100
  if r.isSpiking = false then
    let t := r.spikeTimer - delta
    if t ≤ 0 then
      { r with
        baseLoad := baseLoad
        isSpiking := true
        spikeElapsed := 0
        spikeTimer := 10 + u2 * 5
        state := { r.state with PowerLoad := goRound (baseLoad + 0) } }
    else
      { r with
        baseLoad := baseLoad
        spikeTimer := t
        state := { r.state with PowerLoad := goRound (baseLoad + 0) } }
  else
    let e := r.spikeElapsed + delta
    if r.spikeDuration ≤ e then
      { r with
        baseLoad := baseLoad
        spikeElapsed := e
        isSpiking := false
        state := { r.state with PowerLoad := goRound (baseLoad + 0) } }
    else
      let decayFactor := 1 - e / r.spikeDuration
      let spikeVal := r.spikeMagnitude * decayFactor
      { r with
        baseLoad := baseLoad
        spikeElapsed := e
        state := { r.state with PowerLoad := goRound (baseLoad + spikeVal) } }

/-- Shutdown-cooling body of `Update` (lines 109-120): fission forced to 0,
turbine power from remaining heat, doubled ambient dissipation, floor at 0. -/
def shutdownStep (delta : ℚ) (s0 : ReactorState) : ReactorState :=
  let s1 := { s0 with FissionRate := 0 }
  let tempEfficiency := rmin 1 (s1.Temperature / OVERHEAT_TEMP)
  let potentialPower := s1.Temperature * (s1.TurbineOutput / 100) * tempEfficiency
  let s2 := { s1 with PowerOutput := rmin MAX_POWER_OUTPUT (potentialPower * TURBINE_POWER_FACTOR) }
  let heatConsumedByTurbine := s2.PowerOutput / TURBINE_POWER_FACTOR
  let ambientCooling := s2.Temperature * (AMBIENT_TEMP_DISSIPATION * 2)
  let s3 := { s2 with Temperature := s2.Temperature - (heatConsumedByTurbine + ambientCooling) * delta }
  if s3.Temperature < 0 then { s3 with Temperature := 0, PowerOutput := 0 } else s3

/-- Auto-control guard at the start of the powered branch (lines 125-127). -/
def autoStep (s : ReactorState) : ReactorState :=
  if s.IsAutoControl = true then runAutoControlLocked s else s

/-- Heat generation and fuel consumption when a live rod is present
(lines 129-135). -/
def fuelHeatStep (delta : ℚ) (s : ReactorState) : ReactorState :=
  match s.FuelRod with
  | some rod =>
      if 0 < rod.Condition then
        let heatGenerated := s.FissionRate / 100 * HEAT_GENERATION_RATE
        let fuelConsumed := s.FissionRate / 100 * FUEL_CONSUMPTION_RATE * delta
        { s with
          Temperature := s.Temperature + heatGenerated * delta
          FuelRod := some ⟨rmax 0 (rod.Condition - fuelConsumed)⟩ }
      else s
  | none => s

/-- Turbine power and cooling with single ambient dissipation, temperature
floored at 0 with the power output left as computed (lines 137-145). -/
def coolStep (delta : ℚ) (s : ReactorState) : ReactorState :=
  let tempEfficiency := rmin 1 (s.Temperature / OVERHEAT_TEMP)
  let potentialPower := s.Temperature * (s.TurbineOutput / 100) * tempEfficiency
  let s3 := { s with PowerOutput := rmin MAX_POWER_OUTPUT (potentialPower * TURBINE_POWER_FACTOR) }
  let heatConsumedByTurbine := s3.PowerOutput / TURBINE_POWER_FACTOR
  let ambientCooling := s3.Temperature * AMBIENT_TEMP_DISSIPATION
  let s4 := { s3 with Temperature := s3.Temperature - (heatConsumedByTurbine + ambientCooling) * delta }
  if s4.Temperature < 0 then { s4 with Temperature := 0 } else s4

/-- Powered body of `Update` (lines 125-145), in the source's order. -/
def poweredStep (delta : ℚ) (s0 : ReactorState) : ReactorState :=
  coolStep delta (fuelHeatStep delta (autoStep s0))

/-- `Update(delta)`: the per-tick transition (grid load, then shutdown cooling
or the powered physics step, then status recomputation). -/
def Update (u1 u2 delta : ℚ) (r : Reactor) : Reactor :=
  let r1 := updateGridLoad u1 u2 delta r
  if r1.state.IsPoweredOn = false ∨ r1.state.Status &&& StatusScram ≠ 0 then
    { r1 with state := updateStatusLocked (shutdownStep delta r1.state) }
  else
    { r1 with state := updateStatusLocked (poweredStep delta r1.state) }

/-- `PowerOn`: re-enable and clear the Scram bit, only when currently off. -/
def PowerOn (r : Reactor) : Reactor :=
  if r.state.IsPoweredOn = false then
    { r with state := { r.state with IsPoweredOn := true, Status := Nat.ldiff r.state.Status StatusScram } }
  else r

/-- `PowerOff`: turn off; does not touch the Scram bit. -/
def PowerOff (r : Reactor) : Reactor :=
  { r with state := { r.state with IsPoweredOn := false } }

/-- `Scram`: set the Scram bit and force power off. -/
def Scram (r : Reactor) : Reactor :=
  { r with state := { r.state with Status := r.state.Status ||| StatusScram, IsPoweredOn := false } }

/-- `ToggleAuto`. -/
def ToggleAuto (r : Reactor) : Reactor :=
  { r with state := { r.state with IsAutoControl := !r.state.IsAutoControl } }

/-- `SetFissionRate`: accepted (clamped) only in manual mode. -/
def SetFissionRate (v : ℚ) (r : Reactor) : Reactor :=
  if r.state.IsAutoControl = false then
    { r with state := { r.state with FissionRate := clamp v 0 100 } }
  else r

/-- `SetTurbineOutput`: accepted (clamped) only in manual mode. -/
def SetTurbineOutput (v : ℚ) (r : Reactor) : Reactor :=
  if r.state.IsAutoControl = false then
    { r with state := { r.state with TurbineOutput := clamp v 0 100 } }
  else r

/-- `SetPowerLoad`: always accepted, clamped below at 0. -/
def SetPowerLoad (v : ℚ) (r : Reactor) : Reactor :=
  { r with state := { r.state with PowerLoad := rmax 0 v } }

/-- `Refuel`: unconditionally install a fresh rod at condition 100. -/
def Refuel (r : Reactor) : Reactor :=
  { r with state := { r.state with FuelRod := some ⟨100⟩ } }

/-- `Snapshot` (value-level model): returns a copy of the state. -/
def Snapshot (r : Reactor) : ReactorState := r.state

end Sim

namespace Sim

/-! ### Basic facts about the Go helpers -/

theorem rmin_le_left (a b : ℚ) : rmin a b ≤ a := by
  unfold rmin; split_ifs with h <;> linarith

theorem rmin_le_right (a b : ℚ) : rmin a b ≤ b := by
  unfold rmin; split_ifs with h <;> linarith

theorem le_rmin (a b c : ℚ) (ha : c ≤ a) (hb : c ≤ b) : c ≤ rmin a b := by
  unfold rmin; split_ifs with h <;> linarith

theorem rmax_le (a b c : ℚ) (ha : a ≤ c) (hb : b ≤ c) : rmax a b ≤ c := by
  unfold rmax; split_ifs with h <;> linarith

theorem le_rmax_left (a b : ℚ) : a ≤ rmax a b := by
  unfold rmax; split_ifs with h <;> linarith

theorem clamp_le (v lo hi : ℚ) (h : lo ≤ hi) : clamp v lo hi ≤ hi := by
  unfold clamp; split_ifs <;> linarith

theorem le_clamp (v lo hi : ℚ) (h : lo ≤ hi) : lo ≤ clamp v lo hi := by
  unfold clamp; split_ifs <;> linarith

theorem and_scram_ne_zero (n : ℕ) : n &&& StatusScram ≠ 0 ↔ n.testBit 7 = true := by
  have h : n &&& 2 ^ 7 = (n.testBit 7).toNat * 2 ^ 7 := Nat.and_two_pow n 7
  have h128 : StatusScram = 2 ^ 7 := by norm_num [StatusScram]
  rw [h128, h]
  cases n.testBit 7 <;> simp

/-! ### Frame lemmas: which fields each internal step can touch -/

theorem updateGridLoad_state (u1 u2 delta : ℚ) (r : Reactor) :
    ∃ pl, (updateGridLoad u1 u2 delta r).state = { r.state with PowerLoad := pl } := by
  simp only [updateGridLoad]
  split_ifs <;> exact ⟨_, rfl⟩

set_option maxHeartbeats 1000000 in
theorem updateStatusLocked_frame (s : ReactorState) :
    ∃ st fr, updateStatusLocked s = { s with Status := st, FuelRod := fr } := by
  rcases h : s.FuelRod with _ | rod
  · simp only [updateStatusLocked, h]
    split_ifs <;> exact ⟨_, _, rfl⟩
  · simp only [updateStatusLocked, h]
    split_ifs <;> exact ⟨_, _, rfl⟩

theorem shutdownStep_frame (delta : ℚ) (s : ReactorState) :
    ∃ t p, shutdownStep delta s = { s with FissionRate := 0, Temperature := t, PowerOutput := p } := by
  simp only [shutdownStep]
  split_ifs <;> exact ⟨_, _, rfl⟩

theorem autoStep_frame (s : ReactorState) :
    ∃ f tu, autoStep s = { s with FissionRate := f, TurbineOutput := tu } := by
  unfold autoStep runAutoControlLocked
  split_ifs <;> exact ⟨_, _, rfl⟩

theorem fuelHeatStep_frame (delta : ℚ) (s : ReactorState) :
    ∃ t fr, fuelHeatStep delta s = { s with Temperature := t, FuelRod := fr } := by
  rcases h : s.FuelRod with _ | rod <;> simp only [fuelHeatStep, h]
  · exact ⟨_, _, rfl⟩
  · split_ifs <;> exact ⟨_, _, rfl⟩

theorem coolStep_frame (delta : ℚ) (s : ReactorState) :
    ∃ t p, coolStep delta s = { s with Temperature := t, PowerOutput := p } := by
  simp only [coolStep]
  split_ifs <;> exact ⟨_, _, rfl⟩

theorem poweredStep_frame (delta : ℚ) (s : ReactorState) :
    ∃ f tu t p fr, poweredStep delta s =
      { s with FissionRate := f, TurbineOutput := tu, Temperature := t,
               PowerOutput := p, FuelRod := fr } := by
  obtain ⟨f, tu, h1⟩ := autoStep_frame s
  obtain ⟨t, fr, h2⟩ := fuelHeatStep_frame delta (autoStep s)
  obtain ⟨t2, p, h3⟩ := coolStep_frame delta (fuelHeatStep delta (autoStep s))
  refine ⟨f, tu, t2, p, fr, ?_⟩
  unfold poweredStep
  rw [h3, h2, h1]

end Sim

namespace Sim

/-! ### Projection corollaries of the frame lemmas -/

theorem updateStatusLocked_IsPoweredOn (s : ReactorState) :
    (updateStatusLocked s).IsPoweredOn = s.IsPoweredOn := by
  obtain ⟨st, fr, h⟩ := updateStatusLocked_frame s; rw [h]

theorem updateStatusLocked_IsAutoControl (s : ReactorState) :
    (updateStatusLocked s).IsAutoControl = s.IsAutoControl := by
  obtain ⟨st, fr, h⟩ := updateStatusLocked_frame s; rw [h]

theorem updateStatusLocked_Temperature (s : ReactorState) :
    (updateStatusLocked s).Temperature = s.Temperature := by
  obtain ⟨st, fr, h⟩ := updateStatusLocked_frame s; rw [h]

theorem updateStatusLocked_FissionRate (s : ReactorState) :
    (updateStatusLocked s).FissionRate = s.FissionRate := by
  obtain ⟨st, fr, h⟩ := updateStatusLocked_frame s; rw [h]

theorem updateStatusLocked_TurbineOutput (s : ReactorState) :
    (updateStatusLocked s).TurbineOutput = s.TurbineOutput := by
  obtain ⟨st, fr, h⟩ := updateStatusLocked_frame s; rw [h]

theorem updateStatusLocked_PowerOutput (s : ReactorState) :
    (updateStatusLocked s).PowerOutput = s.PowerOutput := by
  obtain ⟨st, fr, h⟩ := updateStatusLocked_frame s; rw [h]

theorem updateStatusLocked_PowerLoad (s : ReactorState) :
    (updateStatusLocked s).PowerLoad = s.PowerLoad := by
  obtain ⟨st, fr, h⟩ := updateStatusLocked_frame s; rw [h]

theorem shutdownStep_IsPoweredOn (delta : ℚ) (s : ReactorState) :
    (shutdownStep delta s).IsPoweredOn = s.IsPoweredOn := by
  obtain ⟨t, p, h⟩ := shutdownStep_frame delta s; rw [h]

theorem shutdownStep_IsAutoControl (delta : ℚ) (s : ReactorState) :
    (shutdownStep delta s).IsAutoControl = s.IsAutoControl := by
  obtain ⟨t, p, h⟩ := shutdownStep_frame delta s; rw [h]

theorem shutdownStep_Status (delta : ℚ) (s : ReactorState) :
    (shutdownStep delta s).Status = s.Status := by
  obtain ⟨t, p, h⟩ := shutdownStep_frame delta s; rw [h]

theorem shutdownStep_TurbineOutput (delta : ℚ) (s : ReactorState) :
    (shutdownStep delta s).TurbineOutput = s.TurbineOutput := by
  obtain ⟨t, p, h⟩ := shutdownStep_frame delta s; rw [h]

theorem shutdownStep_PowerLoad (delta : ℚ) (s : ReactorState) :
    (shutdownStep delta s).PowerLoad = s.PowerLoad := by
  obtain ⟨t, p, h⟩ := shutdownStep_frame delta s; rw [h]

theorem shutdownStep_FuelRod (delta : ℚ) (s : ReactorState) :
    (shutdownStep delta s).FuelRod = s.FuelRod := by
  obtain ⟨t, p, h⟩ := shutdownStep_frame delta s; rw [h]

theorem poweredStep_IsPoweredOn (delta : ℚ) (s : ReactorState) :
    (poweredStep delta s).IsPoweredOn = s.IsPoweredOn := by
  obtain ⟨f, tu, t, p, fr, h⟩ := poweredStep_frame delta s; rw [h]

theorem poweredStep_IsAutoControl (delta : ℚ) (s : ReactorState) :
    (poweredStep delta s).IsAutoControl = s.IsAutoControl := by
  obtain ⟨f, tu, t, p, fr, h⟩ := poweredStep_frame delta s; rw [h]

theorem poweredStep_Status (delta : ℚ) (s : ReactorState) :
    (poweredStep delta s).Status = s.Status := by
  obtain ⟨f, tu, t, p, fr, h⟩ := poweredStep_frame delta s; rw [h]

theorem poweredStep_PowerLoad (delta : ℚ) (s : ReactorState) :
    (poweredStep delta s).PowerLoad = s.PowerLoad := by
  obtain ⟨f, tu, t, p, fr, h⟩ := poweredStep_frame delta s; rw [h]

/-! ### Scram-bit behaviour of the status recomputation -/

theorem testBit7_of_lor (n c : ℕ) (hc : c.testBit 7 = false) :
    (n ||| c).testBit 7 = n.testBit 7 := by
  rw [Nat.testBit_lor, hc, Bool.or_false]

theorem testBit7_of_land_scram (n : ℕ) :
    (n &&& StatusScram).testBit 7 = n.testBit 7 := by
  rw [Nat.testBit_land, show StatusScram.testBit 7 = true by decide, Bool.and_true]

theorem testBit7_lor_tempLow (n : ℕ) : (n ||| StatusTempLow).testBit 7 = n.testBit 7 :=
  testBit7_of_lor n StatusTempLow (by decide)

theorem testBit7_lor_overheat (n : ℕ) : (n ||| StatusOverheat).testBit 7 = n.testBit 7 :=
  testBit7_of_lor n StatusOverheat (by decide)

theorem testBit7_lor_outputLow (n : ℕ) : (n ||| StatusOutputLow).testBit 7 = n.testBit 7 :=
  testBit7_of_lor n StatusOutputLow (by decide)

theorem testBit7_lor_outputHigh (n : ℕ) : (n ||| StatusOutputHigh).testBit 7 = n.testBit 7 :=
  testBit7_of_lor n StatusOutputHigh (by decide)

theorem testBit7_lor_fuelLow (n : ℕ) : (n ||| StatusFuelLow).testBit 7 = n.testBit 7 :=
  testBit7_of_lor n StatusFuelLow (by decide)

theorem testBit7_lor_fuelOut (n : ℕ) : (n ||| StatusFuelOut).testBit 7 = n.testBit 7 :=
  testBit7_of_lor n StatusFuelOut (by decide)

theorem testBit7_lor_meltdown (n : ℕ) : (n ||| StatusMeltdown).testBit 7 = n.testBit 7 :=
  testBit7_of_lor n StatusMeltdown (by decide)

set_option maxHeartbeats 1000000 in
theorem updateStatusLocked_scram (s : ReactorState) :
    (updateStatusLocked s).Status.testBit 7 = s.Status.testBit 7 := by
  rcases h : s.FuelRod with _ | rod <;>
    simp only [updateStatusLocked, h] <;> split_ifs <;>
      simp only [testBit7_lor_tempLow, testBit7_lor_overheat, testBit7_lor_outputLow,
        testBit7_lor_outputHigh, testBit7_lor_fuelLow, testBit7_lor_fuelOut,
        testBit7_lor_meltdown, testBit7_of_land_scram]

end Sim

namespace Sim

set_option maxHeartbeats 1000000 in
theorem Update_state (u1 u2 delta : ℚ) (r : Reactor) :
    ∃ pl, (Update u1 u2 delta r).state =
      if r.state.IsPoweredOn = false ∨ r.state.Status &&& StatusScram ≠ 0 then
        updateStatusLocked (shutdownStep delta { r.state with PowerLoad := pl })
      else
        updateStatusLocked (poweredStep delta { r.state with PowerLoad := pl }) := by
  obtain ⟨pl, hg⟩ := updateGridLoad_state u1 u2 delta r
  refine ⟨pl, ?_⟩
  unfold Update
  simp only [hg]
  split_ifs <;> rfl

theorem Update_IsPoweredOn (u1 u2 delta : ℚ) (r : Reactor) :
    (Update u1 u2 delta r).state.IsPoweredOn = r.state.IsPoweredOn := by
  obtain ⟨pl, h⟩ := Update_state u1 u2 delta r
  rw [h]
  split_ifs
  · rw [updateStatusLocked_IsPoweredOn, shutdownStep_IsPoweredOn]
  · rw [updateStatusLocked_IsPoweredOn, poweredStep_IsPoweredOn]

theorem Update_IsAutoControl (u1 u2 delta : ℚ) (r : Reactor) :
    (Update u1 u2 delta r).state.IsAutoControl = r.state.IsAutoControl := by
  obtain ⟨pl, h⟩ := Update_state u1 u2 delta r
  rw [h]
  split_ifs
  · rw [updateStatusLocked_IsAutoControl, shutdownStep_IsAutoControl]
  · rw [updateStatusLocked_IsAutoControl, poweredStep_IsAutoControl]

theorem Update_scramBit (u1 u2 delta : ℚ) (r : Reactor) :
    (Update u1 u2 delta r).state.Status.testBit 7 = r.state.Status.testBit 7 := by
  obtain ⟨pl, h⟩ := Update_state u1 u2 delta r
  rw [h]
  split_ifs
  · rw [updateStatusLocked_scram, shutdownStep_Status]
  · rw [updateStatusLocked_scram, poweredStep_Status]

end Sim

namespace Sim

theorem ldiff_scram_and_scram (n : ℕ) : Nat.ldiff n StatusScram &&& StatusScram = 0 := by
  by_contra hne
  have h7 := (and_scram_ne_zero _).mp hne
  rw [Nat.testBit_ldiff, show StatusScram.testBit 7 = true by decide] at h7
  simp at h7

theorem ldiff_scram_testBit7 (n : ℕ) : (Nat.ldiff n StatusScram).testBit 7 = false := by
  rw [Nat.testBit_ldiff, show StatusScram.testBit 7 = true by decide]
  simp

theorem ldiff_scram_testBit_ne (n k : ℕ) (hk : k ≠ 7) :
    (Nat.ldiff n StatusScram).testBit k = n.testBit k := by
  rw [Nat.testBit_ldiff, show StatusScram = 2 ^ 7 by decide,
    Nat.testBit_two_pow_of_ne (fun h => hk h.symm)]
  simp

/-- C8: `powerOn()` when already on leaves the whole reactor unchanged (the
Scram bit in particular is not cleared); when off it sets `isPoweredOn`,
clears exactly the Scram status bit, and changes nothing else. -/
theorem powerOn_spec (r : Reactor) :
    (r.state.IsPoweredOn = true → PowerOn r = r) ∧
    (r.state.IsPoweredOn = false →
      (PowerOn r).state.IsPoweredOn = true ∧
      (PowerOn r).state.Status.testBit 7 = false ∧
      (∀ k, k ≠ 7 → (PowerOn r).state.Status.testBit k = r.state.Status.testBit k) ∧
      (PowerOn r).state.IsAutoControl = r.state.IsAutoControl ∧
      (PowerOn r).state.Temperature = r.state.Temperature ∧
      (PowerOn r).state.FissionRate = r.state.FissionRate ∧
      (PowerOn r).state.TurbineOutput = r.state.TurbineOutput ∧
      (PowerOn r).state.PowerOutput = r.state.PowerOutput ∧
      (PowerOn r).state.PowerLoad = r.state.PowerLoad ∧
      (PowerOn r).state.FuelRod = r.state.FuelRod ∧
      (PowerOn r).baseLoad = r.baseLoad ∧
      (PowerOn r).spikeTimer = r.spikeTimer ∧
      (PowerOn r).isSpiking = r.isSpiking ∧
      (PowerOn r).spikeElapsed = r.spikeElapsed ∧
      (PowerOn r).spikeDuration = r.spikeDuration ∧
      (PowerOn r).spikeMagnitude = r.spikeMagnitude) := by
  constructor
  · intro h
    unfold PowerOn
    rw [h]
    simp
  · intro h
    have hpo : PowerOn r =
        { r with state :=
            { r.state with
                IsPoweredOn := true
                Status := Nat.ldiff r.state.Status StatusScram } } := by
      unfold PowerOn
      rw [h]
      simp
    rw [hpo]
    exact ⟨rfl, ldiff_scram_testBit7 _, fun k hk => ldiff_scram_testBit_ne _ k hk,
      rfl, rfl, rfl, rfl, rfl, rfl, rfl, rfl, rfl, rfl, rfl, rfl, rfl⟩

/-- Witness for `powerOn_spec` at concrete reactors (already-on and off). -/
theorem powerOn_spec_wit :
    PowerOn NewReactor = NewReactor ∧
    (PowerOn (PowerOff NewReactor)).state.IsPoweredOn = true :=
  ⟨(powerOn_spec NewReactor).1 rfl, ((powerOn_spec (PowerOff NewReactor)).2 rfl).1⟩

/-- C5: while auto-control is on, manual setpoint commands leave the whole
reactor unchanged; in manual mode they install the clamped value and change
nothing else. -/
theorem setpoints_spec (r : Reactor) (v : ℚ) :
    (r.state.IsAutoControl = true →
      SetFissionRate v r = r ∧ SetTurbineOutput v r = r) ∧
    (r.state.IsAutoControl = false →
      SetFissionRate v r = { r with state := { r.state with FissionRate := clamp v 0 100 } } ∧
      SetTurbineOutput v r = { r with state := { r.state with TurbineOutput := clamp v 0 100 } }) := by
  constructor
  · intro h
    unfold SetFissionRate SetTurbineOutput
    rw [h]
    simp
  · intro h
    unfold SetFissionRate SetTurbineOutput
    rw [h]
    simp

/-- Witness for `setpoints_spec`: auto mode in `NewReactor`, manual mode after
`toggleAuto`. -/
theorem setpoints_spec_wit :
    SetFissionRate 150 NewReactor = NewReactor ∧
    SetFissionRate 150 (ToggleAuto NewReactor) =
      { ToggleAuto NewReactor with state :=
        { (ToggleAuto NewReactor).state with FissionRate := clamp 150 0 100 } } :=
  ⟨((setpoints_spec NewReactor 150).1 rfl).1,
   ((setpoints_spec (ToggleAuto NewReactor) 150).2 rfl).1⟩

end Sim

namespace Sim

/-- The safety invariant relating the Scram bit and the power switch. -/
def ScramInv (s : ReactorState) : Prop :=
  s.Status &&& StatusScram ≠ 0 → s.IsPoweredOn = false

theorem scram_status_ne_zero (n : ℕ) : (n ||| StatusScram) &&& StatusScram ≠ 0 := by
  refine (and_scram_ne_zero _).mpr ?_
  rw [Nat.testBit_lor, show StatusScram.testBit 7 = true by decide, Bool.or_true]

/-- C3: `status.Scram ⇒ isPoweredOn = false` holds in the initial state and is
preserved by every operation; `scram` forces shutdown and sets the bit; every
operation except `powerOn` keeps the bit set; `powerOn` (when off) clears the
bit and powers on simultaneously. -/
theorem scramInv_preserved (r : Reactor) (h : ScramInv r.state) (u1 u2 delta v w x : ℚ) :
    ScramInv NewReactor.state ∧
    ScramInv (PowerOn r).state ∧
    ScramInv (PowerOff r).state ∧
    ScramInv (Scram r).state ∧
    ScramInv (ToggleAuto r).state ∧
    ScramInv (SetFissionRate v r).state ∧
    ScramInv (SetTurbineOutput w r).state ∧
    ScramInv (SetPowerLoad x r).state ∧
    ScramInv (Refuel r).state ∧
    ScramInv (Update u1 u2 delta r).state ∧
    (Scram r).state.IsPoweredOn = false ∧
    (Scram r).state.Status &&& StatusScram ≠ 0 ∧
    (r.state.Status &&& StatusScram ≠ 0 →
      (PowerOff r).state.Status &&& StatusScram ≠ 0 ∧
      (ToggleAuto r).state.Status &&& StatusScram ≠ 0 ∧
      (SetFissionRate v r).state.Status &&& StatusScram ≠ 0 ∧
      (SetTurbineOutput w r).state.Status &&& StatusScram ≠ 0 ∧
      (SetPowerLoad x r).state.Status &&& StatusScram ≠ 0 ∧
      (Refuel r).state.Status &&& StatusScram ≠ 0 ∧
      (Update u1 u2 delta r).state.Status &&& StatusScram ≠ 0) ∧
    (r.state.IsPoweredOn = false →
      (PowerOn r).state.IsPoweredOn = true ∧
      (PowerOn r).state.Status &&& StatusScram = 0) := by
  have hUpd : (Update u1 u2 delta r).state.Status &&& StatusScram ≠ 0 →
      r.state.Status &&& StatusScram ≠ 0 := by
    intro hs
    have h7 := (and_scram_ne_zero _).mp hs
    rw [Update_scramBit] at h7
    exact (and_scram_ne_zero _).mpr h7
  have hUpd2 : r.state.Status &&& StatusScram ≠ 0 →
      (Update u1 u2 delta r).state.Status &&& StatusScram ≠ 0 := by
    intro hs
    refine (and_scram_ne_zero _).mpr ?_
    rw [Update_scramBit]
    exact (and_scram_ne_zero _).mp hs
  have hsfS : (SetFissionRate v r).state.Status = r.state.Status := by
    unfold SetFissionRate
    split_ifs <;> rfl
  have hstS : (SetTurbineOutput w r).state.Status = r.state.Status := by
    unfold SetTurbineOutput
    split_ifs <;> rfl
  have hsfI : ScramInv (SetFissionRate v r).state := by
    unfold SetFissionRate
    split_ifs <;> exact h
  have hstI : ScramInv (SetTurbineOutput w r).state := by
    unfold SetTurbineOutput
    split_ifs <;> exact h
  refine ⟨fun hc => absurd (by decide) hc, ?_, fun _ => rfl, fun _ => rfl, h,
    hsfI, hstI, h, h, ?_, rfl, scram_status_ne_zero _, ?_, ?_⟩
  · unfold PowerOn ScramInv
    split_ifs with hc
    · intro hs
      exact absurd (ldiff_scram_and_scram r.state.Status) hs
    · exact h
  · intro hs
    rw [Update_IsPoweredOn]
    exact h (hUpd hs)
  · intro hsc
    exact ⟨hsc, hsc, hsfS ▸ hsc, hstS ▸ hsc, hsc, hsc, hUpd2 hsc⟩
  · intro hoff
    have hpo : PowerOn r =
        { r with state :=
            { r.state with
                IsPoweredOn := true
                Status := Nat.ldiff r.state.Status StatusScram } } := by
      unfold PowerOn
      rw [hoff]
      simp
    rw [hpo]
    exact ⟨rfl, ldiff_scram_and_scram _⟩

end Sim

namespace Sim

/-- Witness for `scramInv_preserved` at the just-scrammed initial reactor. -/
theorem scramInv_preserved_wit :
    ScramInv (Update 0 0 (1/5) (Scram NewReactor)).state :=
  (scramInv_preserved (Scram NewReactor) (fun _ => rfl) 0 0 (1/5) 0 0 0).2.2.2.2.2.2.2.2.2.1

theorem statusBit_table :
    Nat.testBit 128 0 = false ∧ Nat.testBit 128 1 = false ∧ Nat.testBit 128 2 = false ∧
    Nat.testBit 128 3 = false ∧ Nat.testBit 128 6 = false ∧
    Nat.testBit 1 0 = true ∧ Nat.testBit 1 1 = false ∧ Nat.testBit 1 2 = false ∧
    Nat.testBit 1 3 = false ∧ Nat.testBit 1 6 = false ∧
    Nat.testBit 2 0 = false ∧ Nat.testBit 2 1 = true ∧ Nat.testBit 2 2 = false ∧
    Nat.testBit 2 3 = false ∧ Nat.testBit 2 6 = false ∧
    Nat.testBit 4 0 = false ∧ Nat.testBit 4 1 = false ∧ Nat.testBit 4 2 = true ∧
    Nat.testBit 4 3 = false ∧ Nat.testBit 4 6 = false ∧
    Nat.testBit 8 0 = false ∧ Nat.testBit 8 1 = false ∧ Nat.testBit 8 2 = false ∧
    Nat.testBit 8 3 = true ∧ Nat.testBit 8 6 = false ∧
    Nat.testBit 16 0 = false ∧ Nat.testBit 16 1 = false ∧ Nat.testBit 16 2 = false ∧
    Nat.testBit 16 3 = false ∧ Nat.testBit 16 6 = false ∧
    Nat.testBit 32 0 = false ∧ Nat.testBit 32 1 = false ∧ Nat.testBit 32 2 = false ∧
    Nat.testBit 32 3 = false ∧ Nat.testBit 32 6 = false ∧
    Nat.testBit 64 0 = false ∧ Nat.testBit 64 1 = false ∧ Nat.testBit 64 2 = false ∧
    Nat.testBit 64 3 = false ∧ Nat.testBit 64 6 = true := by decide

set_option maxHeartbeats 1600000 in
theorem updateStatusLocked_exclusive (s : ReactorState) :
    ¬((updateStatusLocked s).Status.testBit 0 = true ∧ (updateStatusLocked s).Status.testBit 1 = true) ∧
    ¬((updateStatusLocked s).Status.testBit 0 = true ∧ (updateStatusLocked s).Status.testBit 6 = true) ∧
    ¬((updateStatusLocked s).Status.testBit 1 = true ∧ (updateStatusLocked s).Status.testBit 6 = true) ∧
    ¬((updateStatusLocked s).Status.testBit 2 = true ∧ (updateStatusLocked s).Status.testBit 3 = true) ∧
    (((updateStatusLocked s).Status.testBit 2 = true ∨ (updateStatusLocked s).Status.testBit 3 = true) →
      100 < s.PowerLoad) := by
  rcases h : s.FuelRod with _ | rod <;>
    simp only [updateStatusLocked, h] <;>
      split_ifs with h1 h2 h3 h4 h5 h6 h7 <;>
        simp_all [Nat.testBit_lor, Nat.testBit_land, statusBit_table, StatusScram, StatusMeltdown,
          StatusOverheat, StatusTempLow, StatusOutputHigh, StatusOutputLow, StatusFuelLow,
          StatusFuelOut] <;>
          linarith

/-- C6: after every `advance`, the heat flags TempLow (bit 0), Overheat (bit 1)
and Meltdown (bit 6) are pairwise exclusive, OutputLow (bit 2) and OutputHigh
(bit 3) are never both set, and an output flag is set only when the power load
exceeds 100. -/
theorem status_mutual_exclusion (u1 u2 delta : ℚ) (r : Reactor) :
    ¬((Update u1 u2 delta r).state.Status.testBit 0 = true ∧
      (Update u1 u2 delta r).state.Status.testBit 1 = true) ∧
    ¬((Update u1 u2 delta r).state.Status.testBit 0 = true ∧
      (Update u1 u2 delta r).state.Status.testBit 6 = true) ∧
    ¬((Update u1 u2 delta r).state.Status.testBit 1 = true ∧
      (Update u1 u2 delta r).state.Status.testBit 6 = true) ∧
    ¬((Update u1 u2 delta r).state.Status.testBit 2 = true ∧
      (Update u1 u2 delta r).state.Status.testBit 3 = true) ∧
    (((Update u1 u2 delta r).state.Status.testBit 2 = true ∨
      (Update u1 u2 delta r).state.Status.testBit 3 = true) →
      100 < (Update u1 u2 delta r).state.PowerLoad) := by
  obtain ⟨pl, h⟩ := Update_state u1 u2 delta r
  rw [h]
  split_ifs
  · have hx := updateStatusLocked_exclusive (shutdownStep delta { r.state with PowerLoad := pl })
    rw [updateStatusLocked_PowerLoad]
    exact hx
  · have hx := updateStatusLocked_exclusive (poweredStep delta { r.state with PowerLoad := pl })
    rw [updateStatusLocked_PowerLoad]
    exact hx

end Sim

namespace Sim

theorem updateGridLoad_powerLoad_irrel (u1 u2 delta v : ℚ) (r : Reactor) :
    updateGridLoad u1 u2 delta { r with state := { r.state with PowerLoad := v } } =
      updateGridLoad u1 u2 delta r := by
  simp only [updateGridLoad]

/-- C10: the stored `powerLoad` value does not influence `advance`: with the
same random draws, a tick from a state whose `powerLoad` was overwritten (for
instance by `setPowerLoad`) yields exactly the same reactor, because
`updateGridLoad` recomputes `powerLoad` before anything reads it. -/
theorem powerLoad_noninterference (u1 u2 delta v : ℚ) (r : Reactor) :
    Update u1 u2 delta { r with state := { r.state with PowerLoad := v } } =
      Update u1 u2 delta r ∧
    Update u1 u2 delta (SetPowerLoad v r) = Update u1 u2 delta r := by
  constructor
  · unfold Update
    rw [updateGridLoad_powerLoad_irrel]
  · unfold Update SetPowerLoad
    rw [updateGridLoad_powerLoad_irrel]

theorem statusBit_table5 :
    Nat.testBit 128 5 = false ∧ Nat.testBit 64 5 = false ∧ Nat.testBit 32 5 = true ∧
    Nat.testBit 16 5 = false ∧ Nat.testBit 8 5 = false ∧ Nat.testBit 4 5 = false ∧
    Nat.testBit 2 5 = false ∧ Nat.testBit 1 5 = false := by decide

theorem updateStatusLocked_fuelOut (s : ReactorState)
    (h : s.FuelRod = none ∨ ∃ rod, s.FuelRod = some rod ∧ rod.Condition ≤ 0) :
    (updateStatusLocked s).Status.testBit 5 = true ∧ (updateStatusLocked s).FuelRod = none := by
  rcases h with hfr | ⟨rod, hfr, hc⟩
  · simp only [updateStatusLocked, hfr]
    constructor
    · rw [Nat.testBit_lor, show StatusFuelOut.testBit 5 = true by decide, Bool.or_true]
    · trivial
  · simp only [updateStatusLocked, hfr, if_pos hc]
    constructor
    · rw [Nat.testBit_lor, show StatusFuelOut.testBit 5 = true by decide, Bool.or_true]
    · trivial

theorem fuelHeatStep_exhausted (delta : ℚ) (s : ReactorState)
    (h : s.FuelRod = none ∨ ∃ rod, s.FuelRod = some rod ∧ rod.Condition ≤ 0) :
    fuelHeatStep delta s = s := by
  rcases h with hfr | ⟨rod, hfr, hc⟩
  · simp only [fuelHeatStep, hfr]
  · simp only [fuelHeatStep, hfr]
    rw [if_neg (not_lt.mpr hc)]

theorem poweredStep_FuelRod_exhausted (delta : ℚ) (s : ReactorState)
    (h : s.FuelRod = none ∨ ∃ rod, s.FuelRod = some rod ∧ rod.Condition ≤ 0) :
    (poweredStep delta s).FuelRod = s.FuelRod := by
  obtain ⟨f, tu, h1⟩ := autoStep_frame s
  have hex : (autoStep s).FuelRod = s.FuelRod := by rw [h1]
  have h' : (autoStep s).FuelRod = none ∨
      ∃ rod, (autoStep s).FuelRod = some rod ∧ rod.Condition ≤ 0 := by
    rw [hex]; exact h
  unfold poweredStep
  rw [fuelHeatStep_exhausted delta _ h']
  obtain ⟨t, p, h3⟩ := coolStep_frame delta (autoStep s)
  rw [h3]
  exact hex

set_option maxHeartbeats 1000000 in
theorem updateStatusLocked_fresh_rod (s : ReactorState) (hfr : s.FuelRod = some ⟨100⟩) :
    (updateStatusLocked s).Status.testBit 5 = false := by
  simp only [updateStatusLocked, hfr]
  rw [if_neg (by norm_num : ¬ (FuelRod.mk 100).Condition ≤ 0),
    if_neg (by norm_num [LOW_FUEL_THRESHOLD] : ¬ (FuelRod.mk 100).Condition < LOW_FUEL_THRESHOLD)]
  split_ifs <;>
    simp [Nat.testBit_lor, Nat.testBit_land, statusBit_table5, StatusScram, StatusMeltdown,
      StatusOverheat, StatusTempLow, StatusOutputHigh, StatusOutputLow]

/-- C7: once the fuel rod is exhausted (absent, or condition at 0), the next
`advance` sets FuelOut (bit 5) and discards the rod entirely; `refuel`
unconditionally installs a fresh rod at condition 100 without changing the
status word, and the next status recomputation clears FuelOut. -/
theorem fuel_lifecycle (u1 u2 delta : ℚ) (r : Reactor)
    (h : r.state.FuelRod = none ∨ ∃ rod, r.state.FuelRod = some rod ∧ rod.Condition ≤ 0) :
    (Update u1 u2 delta r).state.Status.testBit 5 = true ∧
    (Update u1 u2 delta r).state.FuelRod = none ∧
    (∀ q : Reactor,
      (Refuel q).state.FuelRod = some ⟨100⟩ ∧
      (Refuel q).state.Status = q.state.Status ∧
      (updateStatusLocked (Refuel q).state).Status.testBit 5 = false) := by
  obtain ⟨pl, hu⟩ := Update_state u1 u2 delta r
  have hpl : ({ r.state with PowerLoad := pl } : ReactorState).FuelRod = none ∨
      ∃ rod, ({ r.state with PowerLoad := pl } : ReactorState).FuelRod = some rod ∧
        rod.Condition ≤ 0 := h
  have hmain : (Update u1 u2 delta r).state.Status.testBit 5 = true ∧
      (Update u1 u2 delta r).state.FuelRod = none := by
    rw [hu]
    split_ifs
    · refine updateStatusLocked_fuelOut _ ?_
      rw [shutdownStep_FuelRod]
      exact hpl
    · refine updateStatusLocked_fuelOut _ ?_
      rw [poweredStep_FuelRod_exhausted delta _ hpl]
      exact hpl
  refine ⟨hmain.1, hmain.2, fun q => ⟨rfl, rfl, ?_⟩⟩
  exact updateStatusLocked_fresh_rod _ rfl

/-- Witness for `fuel_lifecycle`: the initial reactor with a zero-condition rod. -/
theorem fuel_lifecycle_wit :
    (Update 0 0 (1/5)
        { NewReactor with state := { NewReactor.state with FuelRod := some ⟨0⟩ } }).state.FuelRod
      = none :=
  (fuel_lifecycle 0 0 (1/5)
      { NewReactor with state := { NewReactor.state with FuelRod := some ⟨0⟩ } }
      (Or.inr ⟨⟨0⟩, rfl, le_refl 0⟩)).2.1

end Sim

namespace Sim

/-! ### Range facts for the physics steps, leading to the tick invariant -/

theorem power_expr_bounds (T turb : ℚ) (hT : 0 ≤ T) (hturb : 0 ≤ turb) :
    0 ≤ rmin MAX_POWER_OUTPUT (T * (turb / 100) * rmin 1 (T / OVERHEAT_TEMP) * TURBINE_POWER_FACTOR) ∧
    rmin MAX_POWER_OUTPUT (T * (turb / 100) * rmin 1 (T / OVERHEAT_TEMP) * TURBINE_POWER_FACTOR) ≤
      MAX_POWER_OUTPUT := by
  have heff : 0 ≤ rmin 1 (T / OVERHEAT_TEMP) :=
    le_rmin _ _ _ (by norm_num) (div_nonneg hT (by norm_num [OVERHEAT_TEMP]))
  have hpot : 0 ≤ T * (turb / 100) * rmin 1 (T / OVERHEAT_TEMP) * TURBINE_POWER_FACTOR :=
    mul_nonneg (mul_nonneg (mul_nonneg hT (div_nonneg hturb (by norm_num))) heff)
      (by norm_num [TURBINE_POWER_FACTOR])
  exact ⟨le_rmin _ _ _ (by norm_num [MAX_POWER_OUTPUT]) hpot, rmin_le_left _ _⟩

theorem coolStep_spec (delta : ℚ) (s : ReactorState) (hδ : 0 ≤ delta)
    (hT : 0 ≤ s.Temperature) (hturb : 0 ≤ s.TurbineOutput) :
    0 ≤ (coolStep delta s).Temperature ∧
    0 ≤ (coolStep delta s).PowerOutput ∧
    (coolStep delta s).PowerOutput ≤ MAX_POWER_OUTPUT ∧
    (coolStep delta s).FissionRate = s.FissionRate ∧
    (coolStep delta s).TurbineOutput = s.TurbineOutput := by
  have hp := power_expr_bounds s.Temperature s.TurbineOutput hT hturb
  simp only [coolStep]
  split_ifs with hneg
  · exact ⟨le_refl 0, hp.1, hp.2, rfl, rfl⟩
  · exact ⟨le_of_not_lt hneg, hp.1, hp.2, rfl, rfl⟩

theorem shutdownStep_spec (delta : ℚ) (s : ReactorState) (hδ : 0 ≤ delta)
    (hT : 0 ≤ s.Temperature) (hturb : 0 ≤ s.TurbineOutput) :
    (shutdownStep delta s).FissionRate = 0 ∧
    0 ≤ (shutdownStep delta s).Temperature ∧
    0 ≤ (shutdownStep delta s).PowerOutput ∧
    (shutdownStep delta s).PowerOutput ≤ MAX_POWER_OUTPUT := by
  have hp := power_expr_bounds s.Temperature s.TurbineOutput hT hturb
  simp only [shutdownStep]
  split_ifs with hneg
  · exact ⟨rfl, le_refl 0, le_refl 0, by norm_num [MAX_POWER_OUTPUT]⟩
  · exact ⟨rfl, le_of_not_lt hneg, hp.1, hp.2⟩

theorem autoStep_spec (s : ReactorState) (hf : 0 ≤ s.FissionRate ∧ s.FissionRate ≤ 100)
    (ht : 0 ≤ s.TurbineOutput ∧ s.TurbineOutput ≤ 100) :
    (0 ≤ (autoStep s).FissionRate ∧ (autoStep s).FissionRate ≤ 100) ∧
    (0 ≤ (autoStep s).TurbineOutput ∧ (autoStep s).TurbineOutput ≤ 100) ∧
    (autoStep s).Temperature = s.Temperature := by
  unfold autoStep runAutoControlLocked
  split_ifs
  · exact ⟨⟨le_clamp _ _ _ (by norm_num), clamp_le _ _ _ (by norm_num)⟩,
      ⟨le_clamp _ _ _ (by norm_num), clamp_le _ _ _ (by norm_num)⟩, rfl⟩
  · exact ⟨hf, ht, rfl⟩

theorem fuelHeatStep_spec (delta : ℚ) (s : ReactorState) (hδ : 0 ≤ delta)
    (hT : 0 ≤ s.Temperature) (hf : 0 ≤ s.FissionRate) :
    0 ≤ (fuelHeatStep delta s).Temperature ∧
    (fuelHeatStep delta s).FissionRate = s.FissionRate ∧
    (fuelHeatStep delta s).TurbineOutput = s.TurbineOutput := by
  rcases h : s.FuelRod with _ | rod
  · simp only [fuelHeatStep, h]
    exact ⟨hT, trivial, trivial⟩
  · simp only [fuelHeatStep, h]
    split_ifs
    · refine ⟨?_, rfl, rfl⟩
      have hheat : 0 ≤ s.FissionRate / 100 * HEAT_GENERATION_RATE * delta :=
        mul_nonneg (mul_nonneg (div_nonneg hf (by norm_num))
          (by norm_num [HEAT_GENERATION_RATE])) hδ
      linarith
    · exact ⟨hT, rfl, rfl⟩

theorem poweredStep_spec (delta : ℚ) (s : ReactorState) (hδ : 0 ≤ delta)
    (hT : 0 ≤ s.Temperature) (hf : 0 ≤ s.FissionRate ∧ s.FissionRate ≤ 100)
    (ht : 0 ≤ s.TurbineOutput ∧ s.TurbineOutput ≤ 100) :
    (0 ≤ (poweredStep delta s).FissionRate ∧ (poweredStep delta s).FissionRate ≤ 100) ∧
    (0 ≤ (poweredStep delta s).TurbineOutput ∧ (poweredStep delta s).TurbineOutput ≤ 100) ∧
    0 ≤ (poweredStep delta s).Temperature ∧
    0 ≤ (poweredStep delta s).PowerOutput ∧
    (poweredStep delta s).PowerOutput ≤ MAX_POWER_OUTPUT := by
  obtain ⟨hfa, hta, hTa⟩ := autoStep_spec s hf ht
  have hTa' : 0 ≤ (autoStep s).Temperature := by rw [hTa]; exact hT
  obtain ⟨hTf, hff, htf⟩ := fuelHeatStep_spec delta (autoStep s) hδ hTa' hfa.1
  have hfb : 0 ≤ (fuelHeatStep delta (autoStep s)).FissionRate ∧
      (fuelHeatStep delta (autoStep s)).FissionRate ≤ 100 := by rw [hff]; exact hfa
  have htb : 0 ≤ (fuelHeatStep delta (autoStep s)).TurbineOutput ∧
      (fuelHeatStep delta (autoStep s)).TurbineOutput ≤ 100 := by rw [htf]; exact hta
  obtain ⟨hTc, hPc1, hPc2, hfc, htc⟩ :=
    coolStep_spec delta (fuelHeatStep delta (autoStep s)) hδ hTf htb.1
  unfold poweredStep
  refine ⟨by rw [hfc]; exact hfb, by rw [htc]; exact htb, hTc, hPc1, hPc2⟩

/-- C1: for every Δt ≥ 0 and every valid state, one `advance` keeps
`fissionRate` and `turbineOutput` in [0,100], `temperature ≥ 0`, and
`powerOutput` in [0, MAX_POWER_OUTPUT]. -/
theorem advance_preserves_invariants (u1 u2 delta : ℚ) (r : Reactor)
    (hδ : 0 ≤ delta)
    (hf : 0 ≤ r.state.FissionRate ∧ r.state.FissionRate ≤ 100)
    (ht : 0 ≤ r.state.TurbineOutput ∧ r.state.TurbineOutput ≤ 100)
    (hT : 0 ≤ r.state.Temperature)
    (hP : 0 ≤ r.state.PowerOutput ∧ r.state.PowerOutput ≤ MAX_POWER_OUTPUT)
    (hL : 0 ≤ r.state.PowerLoad)
    (hfr : ∀ rod, r.state.FuelRod = some rod → 0 ≤ rod.Condition ∧ rod.Condition ≤ 100) :
    (0 ≤ (Update u1 u2 delta r).state.FissionRate ∧
      (Update u1 u2 delta r).state.FissionRate ≤ 100) ∧
    (0 ≤ (Update u1 u2 delta r).state.TurbineOutput ∧
      (Update u1 u2 delta r).state.TurbineOutput ≤ 100) ∧
    0 ≤ (Update u1 u2 delta r).state.Temperature ∧
    0 ≤ (Update u1 u2 delta r).state.PowerOutput ∧
    (Update u1 u2 delta r).state.PowerOutput ≤ MAX_POWER_OUTPUT := by
  obtain ⟨pl, hu⟩ := Update_state u1 u2 delta r
  rw [hu]
  split_ifs
  · obtain ⟨h0, hT2, hP1, hP2⟩ :=
      shutdownStep_spec delta { r.state with PowerLoad := pl } hδ hT ht.1
    rw [updateStatusLocked_FissionRate, updateStatusLocked_TurbineOutput,
      updateStatusLocked_Temperature, updateStatusLocked_PowerOutput,
      shutdownStep_TurbineOutput, h0]
    exact ⟨⟨le_refl 0, by norm_num⟩, ht, hT2, hP1, hP2⟩
  · obtain ⟨hfp, htp, hTp, hP1, hP2⟩ :=
      poweredStep_spec delta { r.state with PowerLoad := pl } hδ hT hf ht
    rw [updateStatusLocked_FissionRate, updateStatusLocked_TurbineOutput,
      updateStatusLocked_Temperature, updateStatusLocked_PowerOutput]
    exact ⟨hfp, htp, hTp, hP1, hP2⟩

/-- Witness for `advance_preserves_invariants` at the initial reactor. -/
theorem advance_preserves_invariants_wit :
    0 ≤ (Update 0 0 (1/5) NewReactor).state.Temperature :=
  (advance_preserves_invariants 0 0 (1/5) NewReactor (by norm_num)
    (by constructor <;> norm_num [NewReactor, OPTIMAL_TEMP, OVERHEAT_TEMP,
      TURBINE_POWER_FACTOR, AMBIENT_TEMP_DISSIPATION, HEAT_GENERATION_RATE])
    (by constructor <;> norm_num [NewReactor, OPTIMAL_TEMP, OVERHEAT_TEMP,
      TURBINE_POWER_FACTOR, AMBIENT_TEMP_DISSIPATION, HEAT_GENERATION_RATE])
    (by norm_num [NewReactor, OPTIMAL_TEMP])
    (by constructor <;> norm_num [NewReactor, MAX_POWER_OUTPUT])
    (by norm_num [NewReactor])
    (by intro rod hrod
        injection hrod with h
        rw [← h]
        norm_num)).2.2.1

end Sim

namespace Sim

/-- C9: per-tick behaviour of the grid-load generator.  The base load follows
the clamped random walk; while no spike is active the countdown timer
decreases by Δt; when it reaches ≤ 0 a spike starts (elapsed reset to 0) and
the next spike is scheduled 10 to 15 simulated seconds out (for a draw in
[0,1)); while spiking, elapsed accumulates and the tick contributes
`magnitude * (1 - elapsed/duration)` (1000 decaying to 0 over 10 s),
deactivating once elapsed ≥ duration; `powerLoad = round(baseLoad + spikeVal)`. -/
theorem gridLoad_spec (u1 u2 delta : ℚ) (r : Reactor)
    (hu2 : 0 ≤ u2 ∧ u2 < 1) (hdur : r.spikeDuration = 10) (hmag : r.spikeMagnitude = 1000) :
    (updateGridLoad u1 u2 delta r).baseLoad = clamp (r.baseLoad + (u1 * 24 - 12)) 800 2100 ∧
    (r.isSpiking = false → 0 < r.spikeTimer - delta →
      (updateGridLoad u1 u2 delta r).isSpiking = false ∧
      (updateGridLoad u1 u2 delta r).spikeTimer = r.spikeTimer - delta ∧
      (updateGridLoad u1 u2 delta r).state.PowerLoad =
        goRound ((updateGridLoad u1 u2 delta r).baseLoad + 0)) ∧
    (r.isSpiking = false → r.spikeTimer - delta ≤ 0 →
      (updateGridLoad u1 u2 delta r).isSpiking = true ∧
      (updateGridLoad u1 u2 delta r).spikeElapsed = 0 ∧
      10 ≤ (updateGridLoad u1 u2 delta r).spikeTimer ∧
      (updateGridLoad u1 u2 delta r).spikeTimer < 15 ∧
      (updateGridLoad u1 u2 delta r).state.PowerLoad =
        goRound ((updateGridLoad u1 u2 delta r).baseLoad + 0)) ∧
    (r.isSpiking = true → r.spikeElapsed + delta < 10 →
      (updateGridLoad u1 u2 delta r).isSpiking = true ∧
      (updateGridLoad u1 u2 delta r).spikeElapsed = r.spikeElapsed + delta ∧
      (updateGridLoad u1 u2 delta r).state.PowerLoad =
        goRound ((updateGridLoad u1 u2 delta r).baseLoad +
          1000 * (1 - (r.spikeElapsed + delta) / 10))) ∧
    (r.isSpiking = true → 10 ≤ r.spikeElapsed + delta →
      (updateGridLoad u1 u2 delta r).isSpiking = false ∧
      (updateGridLoad u1 u2 delta r).spikeElapsed = r.spikeElapsed + delta ∧
      (updateGridLoad u1 u2 delta r).state.PowerLoad =
        goRound ((updateGridLoad u1 u2 delta r).baseLoad + 0)) := by
  refine ⟨?_, ?_, ?_, ?_, ?_⟩
  · simp only [updateGridLoad]
    split_ifs <;> rfl
  · intro h1 h2
    simp only [updateGridLoad]
    rw [if_pos h1, if_neg (not_le.mpr h2)]
    exact ⟨h1, rfl, rfl⟩
  · intro h1 h2
    simp only [updateGridLoad]
    rw [if_pos h1, if_pos h2]
    refine ⟨rfl, rfl, ?_, ?_, rfl⟩
    · show (10:ℚ) ≤ 10 + u2 * 5
      linarith [hu2.1]
    · show (10:ℚ) + u2 * 5 < 15
      linarith [hu2.2]
  · intro h1 h2
    simp only [updateGridLoad]
    rw [if_neg (by simp [h1]), if_neg (by rw [hdur]; exact not_le.mpr h2), hmag, hdur]
    exact ⟨h1, rfl, rfl⟩
  · intro h1 h2
    simp only [updateGridLoad]
    rw [if_neg (by simp [h1]), if_pos (by rw [hdur]; exact h2)]
    exact ⟨rfl, rfl, rfl⟩

/-- Witness for `gridLoad_spec`: one quiet tick from the initial reactor. -/
theorem gridLoad_spec_wit :
    (updateGridLoad (1/2) (1/2) (1/5) NewReactor).isSpiking = false :=
  ((gridLoad_spec (1/2) (1/2) (1/5) NewReactor (by norm_num) rfl rfl).2.1 rfl
    (by norm_num [NewReactor])).1

end Sim

namespace Sim

/-- Iterated `advance(0.2)` ticks; `us n` supplies the tick's random draws. -/
def trajFrom (us : ℕ → ℚ × ℚ) (r : Reactor) : ℕ → Reactor
  | 0 => r
  | n + 1 => Update (us n).1 (us n).2 (1/5) (trajFrom us r n)

theorem lt_rmin (a b c : ℚ) (ha : c < a) (hb : c < b) : c < rmin a b := by
  unfold rmin
  split_ifs <;> linarith

theorem shutdown_cool_bounds (T turb : ℚ) (hT : 0 < T) (ht0 : 0 < turb) (ht1 : turb ≤ 100) :
    0 < rmin MAX_POWER_OUTPUT (T * (turb / 100) * rmin 1 (T / OVERHEAT_TEMP) * TURBINE_POWER_FACTOR) ∧
    0 < T - (rmin MAX_POWER_OUTPUT (T * (turb / 100) * rmin 1 (T / OVERHEAT_TEMP) *
        TURBINE_POWER_FACTOR) / TURBINE_POWER_FACTOR + T * (AMBIENT_TEMP_DISSIPATION * 2)) * (1/5) ∧
    T - (rmin MAX_POWER_OUTPUT (T * (turb / 100) * rmin 1 (T / OVERHEAT_TEMP) *
        TURBINE_POWER_FACTOR) / TURBINE_POWER_FACTOR + T * (AMBIENT_TEMP_DISSIPATION * 2)) * (1/5) < T := by
  have hE1 : rmin 1 (T / OVERHEAT_TEMP) ≤ 1 := rmin_le_left _ _
  have hE0 : 0 < rmin 1 (T / OVERHEAT_TEMP) :=
    lt_rmin _ _ _ (by norm_num) (div_pos hT (by norm_num [OVERHEAT_TEMP]))
  have htu1 : turb / 100 ≤ 1 := by linarith
  have htu0 : 0 < turb / 100 := by linarith
  have hP0 : 0 < rmin MAX_POWER_OUTPUT (T * (turb / 100) * rmin 1 (T / OVERHEAT_TEMP) *
      TURBINE_POWER_FACTOR) :=
    lt_rmin _ _ _ (by norm_num [MAX_POWER_OUTPUT])
      (mul_pos (mul_pos (mul_pos hT htu0) hE0) (by norm_num [TURBINE_POWER_FACTOR]))
  have hPle : rmin MAX_POWER_OUTPUT (T * (turb / 100) * rmin 1 (T / OVERHEAT_TEMP) *
      TURBINE_POWER_FACTOR) ≤ T * TURBINE_POWER_FACTOR := by
    refine le_trans (rmin_le_right _ _) ?_
    rw [TURBINE_POWER_FACTOR]
    nlinarith [mul_nonneg (mul_nonneg hT.le hE0.le) (sub_nonneg.mpr htu1),
      mul_nonneg hT.le (sub_nonneg.mpr hE1)]
  rw [TURBINE_POWER_FACTOR, AMBIENT_TEMP_DISSIPATION] at *
  refine ⟨hP0, by nlinarith, by nlinarith⟩

theorem shutdownStep_scram_quant (s : ReactorState) (hT : 0 < s.Temperature)
    (ht0 : 0 < s.TurbineOutput) (ht1 : s.TurbineOutput ≤ 100) :
    (shutdownStep (1/5) s).Temperature < s.Temperature ∧
    0 < (shutdownStep (1/5) s).Temperature ∧
    0 < (shutdownStep (1/5) s).PowerOutput := by
  obtain ⟨hP0, hT0, hTlt⟩ := shutdown_cool_bounds s.Temperature s.TurbineOutput hT ht0 ht1
  simp only [shutdownStep]
  rw [if_neg (not_lt.mpr hT0.le)]
  exact ⟨hTlt, hT0, hP0⟩

theorem scrammed_tick (u1 u2 : ℚ) (r : Reactor)
    (hscram : r.state.Status &&& StatusScram ≠ 0)
    (hT : 0 < r.state.Temperature) (ht0 : 0 < r.state.TurbineOutput)
    (ht1 : r.state.TurbineOutput ≤ 100) :
    (Update u1 u2 (1/5) r).state.Temperature < r.state.Temperature ∧
    0 < (Update u1 u2 (1/5) r).state.Temperature ∧
    0 < (Update u1 u2 (1/5) r).state.PowerOutput ∧
    (Update u1 u2 (1/5) r).state.TurbineOutput = r.state.TurbineOutput ∧
    (Update u1 u2 (1/5) r).state.Status &&& StatusScram ≠ 0 := by
  obtain ⟨pl, hu⟩ := Update_state u1 u2 (1/5) r
  rw [hu, if_pos (Or.inr hscram)]
  obtain ⟨hlt, hpos, hppos⟩ :=
    shutdownStep_scram_quant { r.state with PowerLoad := pl } hT ht0 ht1
  rw [updateStatusLocked_Temperature, updateStatusLocked_PowerOutput,
    updateStatusLocked_TurbineOutput]
  refine ⟨hlt, hpos, hppos, ?_, ?_⟩
  · rw [shutdownStep_TurbineOutput]
  · refine (and_scram_ne_zero _).mpr ?_
    rw [updateStatusLocked_scram, shutdownStep_Status]
    exact (and_scram_ne_zero _).mp hscram

/-- Reactor at temperature 950 with the turbine closed (output 0). -/
def hot950turb0 : Reactor :=
  { NewReactor with state :=
    { NewReactor.state with Temperature := 950, TurbineOutput := 0 } }

/-- C4 counterexample: the claim quantifies over arbitrary valid turbine
output.  With turbineOutput 0, after `scram()` at temperature 950 a single
`advance(0.2)` already has powerOutput 0 while the temperature is still 931:
power output reaches 0 strictly before the temperature does. -/
theorem scram_cooldown_cex :
    (Update 0 0 (1/5) (Scram hot950turb0)).state.PowerOutput = 0 ∧
    0 < (Update 0 0 (1/5) (Scram hot950turb0)).state.Temperature := by
  have h1 : (Scram hot950turb0).state.Status &&& StatusScram ≠ 0 := scram_status_ne_zero _
  obtain ⟨pl, hu⟩ := Update_state 0 0 (1/5) (Scram hot950turb0)
  rw [hu, if_pos (Or.inr h1), updateStatusLocked_PowerOutput, updateStatusLocked_Temperature]
  constructor
  · norm_num [shutdownStep, rmin, Scram, hot950turb0, NewReactor, OVERHEAT_TEMP,
      MAX_POWER_OUTPUT, TURBINE_POWER_FACTOR, AMBIENT_TEMP_DISSIPATION]
  · norm_num [shutdownStep, rmin, Scram, hot950turb0, NewReactor, OVERHEAT_TEMP,
      MAX_POWER_OUTPUT, TURBINE_POWER_FACTOR, AMBIENT_TEMP_DISSIPATION]

/-- C4 (amended): starting from `scram()` at temperature 950 with *positive*
turbine output, every `advance(0.2)` tick strictly decreases the temperature,
the temperature stays positive (in exact arithmetic it never reaches 0), and
at every tick the power output is 0 exactly when the temperature is 0 —
never earlier and never later (in fact both remain positive). -/
theorem scram_cooldown (us : ℕ → ℚ × ℚ) (r0 : Reactor)
    (hT : r0.state.Temperature = 950)
    (ht0 : 0 < r0.state.TurbineOutput) (ht1 : r0.state.TurbineOutput ≤ 100) :
    ∀ n,
      (trajFrom us (Scram r0) (n+1)).state.Temperature <
        (trajFrom us (Scram r0) n).state.Temperature ∧
      0 < (trajFrom us (Scram r0) (n+1)).state.Temperature ∧
      0 < (trajFrom us (Scram r0) (n+1)).state.PowerOutput ∧
      ((trajFrom us (Scram r0) (n+1)).state.PowerOutput = 0 ↔
        (trajFrom us (Scram r0) (n+1)).state.Temperature = 0) := by
  have key : ∀ n, (trajFrom us (Scram r0) n).state.Status &&& StatusScram ≠ 0 ∧
      0 < (trajFrom us (Scram r0) n).state.Temperature ∧
      (trajFrom us (Scram r0) n).state.TurbineOutput = r0.state.TurbineOutput := by
    intro n
    induction n with
    | zero =>
        refine ⟨scram_status_ne_zero _, ?_, rfl⟩
        show (0:ℚ) < r0.state.Temperature
        rw [hT]
        norm_num
    | succ n ih =>
        obtain ⟨hs, hTp, htu⟩ := ih
        have hstep := scrammed_tick (us n).1 (us n).2 _ hs hTp
          (by rw [htu]; exact ht0) (by rw [htu]; exact ht1)
        simp only [trajFrom]
        exact ⟨hstep.2.2.2.2, hstep.2.1, by rw [hstep.2.2.2.1, htu]⟩
  intro n
  obtain ⟨hs, hTp, htu⟩ := key n
  have hstep := scrammed_tick (us n).1 (us n).2 _ hs hTp
    (by rw [htu]; exact ht0) (by rw [htu]; exact ht1)
  simp only [trajFrom]
  exact ⟨hstep.1, hstep.2.1, hstep.2.2.1,
    iff_of_false (ne_of_gt hstep.2.2.1) (ne_of_gt hstep.2.1)⟩

/-- Reactor at temperature 950 with the initial (positive) turbine output. -/
def hot950 : Reactor :=
  { NewReactor with state := { NewReactor.state with Temperature := 950 } }

/-- Witness for `scram_cooldown`: first tick from the scrammed hot reactor. -/
theorem scram_cooldown_wit :
    0 < (trajFrom (fun _ => (0, 0)) (Scram hot950) 1).state.Temperature :=
  ((scram_cooldown (fun _ => (0, 0)) hot950 rfl
    (by norm_num [hot950, NewReactor, OPTIMAL_TEMP, OVERHEAT_TEMP, TURBINE_POWER_FACTOR])
    (by norm_num [hot950, NewReactor, OPTIMAL_TEMP, OVERHEAT_TEMP, TURBINE_POWER_FACTOR])) 0).2.1

end Sim

namespace Sim

/-! ### Heap-explicit model for the snapshot claim

`ReactorState.FuelRod` is a `*FuelRod` in Go, and `Snapshot` returns `r.state`
by value — a shallow copy that duplicates the *pointer*, not the rod.
`Update` line 134 assigns `r.state.FuelRod.Condition` in place, mutating the
cell that an already-returned snapshot still points to.  The model below makes
the pointer explicit: the heap is a list of `FuelRod.Condition` cells and the
state stores an optional address; `Refuel` and the status recomputation only
reassign the pointer, while the fuel-consumption step writes through it. -/

/-- `ReactorState` with the fuel rod held as a pointer into a heap. -/
structure HReactorState where
  IsPoweredOn : Bool
  IsAutoControl : Bool
  Temperature : ℚ
  FissionRate : ℚ
  TurbineOutput : ℚ
  PowerOutput : ℚ
  PowerLoad : ℚ
  FuelRodAddr : Option ℕ
  Status : ℕ
deriving DecidableEq, Repr

/-- `Reactor` with an explicit heap of fuel-rod cells. -/
structure HReactor where
  heap : List ℚ
  state : HReactorState
  baseLoad : ℚ
  spikeTimer : ℚ
  isSpiking : Bool
  spikeElapsed : ℚ
  spikeDuration : ℚ
  spikeMagnitude : ℚ
deriving DecidableEq, Repr

/-- Dereference the fuel-rod pointer (none models Go's nil). -/
def readRod (heap : List ℚ) (addr : Option ℕ) : Option ℚ :=
  addr.bind heap.get?

/-- `NewReactor`, heap-explicit: one allocated rod cell at condition 100. -/
def HNewReactor : HReactor :=
  let initialLoad : ℚ := 1000
  let initialTemp : ℚ := OPTIMAL_TEMP
  let initialTurbine : ℚ :=
    initialLoad / (initialTemp / 100 * (initialTemp / OVERHEAT_TEMP) * TURBINE_POWER_FACTOR)
  let heatConsumed : ℚ :=
    initialLoad / TURBINE_POWER_FACTOR + initialTemp * AMBIENT_TEMP_DISSIPATION
  let initialFission : ℚ := heatConsumed * 100 / HEAT_GENERATION_RATE
  { heap := [100]
    state :=
      { IsPoweredOn := true
        IsAutoControl := true
        Temperature := initialTemp
        FissionRate := initialFission
        TurbineOutput := initialTurbine
        PowerOutput := initialLoad
        PowerLoad := initialLoad
        FuelRodAddr := some 0
        Status := 0 }
    baseLoad := initialLoad
    spikeTimer := 10
    isSpiking := false
    spikeElapsed := 0
    spikeDuration := 10
    spikeMagnitude := 1000 }

/-- `Snapshot`, heap-explicit: a value copy of the state — the fuel-rod
pointer is copied as a pointer. -/
def HSnapshot (r : HReactor) : HReactorState := r.state

/-- `updateGridLoad`, heap-explicit (identical logic). -/
def hUpdateGridLoad (u1 u2 delta : ℚ) (r : HReactor) : HReactor :=
  let change := u1 * 24 - 12
  let baseLoad := clamp (r.baseLoad + change) 800 2100
  if r.isSpiking = false then
    let t := r.spikeTimer - delta
    if t ≤ 0 then
      { r with
        baseLoad := baseLoad
        isSpiking := true
        spikeElapsed := 0
        spikeTimer := 10 + u2 * 5
        state := { r.state with PowerLoad := goRound (baseLoad + 0) } }
    else
      { r with
        baseLoad := baseLoad
        spikeTimer := t
        state := { r.state with PowerLoad := goRound (baseLoad + 0) } }
  else
    let e := r.spikeElapsed + delta
    if r.spikeDuration ≤ e then
      { r with
        baseLoad := baseLoad
        spikeElapsed := e
        isSpiking := false
        state := { r.state with PowerLoad := goRound (baseLoad + 0) } }
    else
      let decayFactor := 1 - e / r.spikeDuration
      let spikeVal := r.spikeMagnitude * decayFactor
      { r with
        baseLoad := baseLoad
        spikeElapsed := e
        state := { r.state with PowerLoad := goRound (baseLoad + spikeVal) } }

/-- `updateStatusLocked`, heap-explicit: the exhausted-rod check dereferences
the pointer; discarding the rod clears only the pointer, never the cell. -/
def hUpdateStatus (heap : List ℚ) (s : HReactorState) : HReactorState :=
  let current0 := s.Status &&& StatusScram
  let current1 :=
    if MELTDOWN_TEMP ≤ s.Temperature then current0 ||| StatusMeltdown
    else if OVERHEAT_TEMP ≤ s.Temperature then current0 ||| StatusOverheat
    else if s.Temperature < LOW_TEMP ∧ s.IsPoweredOn = true ∧ 0 < s.PowerOutput then
      current0 ||| StatusTempLow
    else current0
  let powerDifference := s.PowerOutput - s.PowerLoad
  let current2 :=
    if s.PowerLoad * 0.2 < powerDifference ∧ 100 < s.PowerLoad then
      current1 ||| StatusOutputHigh
    else current1
  let current3 :=
    if powerDifference < -s.PowerLoad * 0.2 ∧ 100 < s.PowerLoad then
      current2 ||| StatusOutputLow
    else current2
  match readRod heap s.FuelRodAddr with
  | none => { s with Status := current3 ||| StatusFuelOut, FuelRodAddr := none }
  | some cond =>
      if cond ≤ 0 then
        { s with Status := current3 ||| StatusFuelOut, FuelRodAddr := none }
      else if cond < LOW_FUEL_THRESHOLD then
        { s with Status := current3 ||| StatusFuelLow }
      else
        { s with Status := current3 }

/-- Shutdown cooling, heap-explicit (identical formulas). -/
def hShutdownStep (delta : ℚ) (s0 : HReactorState) : HReactorState :=
  let s1 := { s0 with FissionRate := 0 }
  let tempEfficiency := rmin 1 (s1.Temperature / OVERHEAT_TEMP)
  let potentialPower := s1.Temperature * (s1.TurbineOutput / 100) * tempEfficiency
  let s2 := { s1 with PowerOutput := rmin MAX_POWER_OUTPUT (potentialPower * TURBINE_POWER_FACTOR) }
  let heatConsumedByTurbine := s2.PowerOutput / TURBINE_POWER_FACTOR
  let ambientCooling := s2.Temperature * (AMBIENT_TEMP_DISSIPATION * 2)
  let s3 := { s2 with Temperature := s2.Temperature - (heatConsumedByTurbine + ambientCooling) * delta }
  if s3.Temperature < 0 then { s3 with Temperature := 0, PowerOutput := 0 } else s3

/-- Auto-control, heap-explicit (identical formulas). -/
def hAutoStep (s : HReactorState) : HReactorState :=
  if s.IsAutoControl = true then
    let powerError := s.PowerLoad - s.PowerOutput
    let turbineOutput := s.TurbineOutput + powerError * 0.01
    let tempError := OPTIMAL_TEMP - s.Temperature
    let fissionRate := s.FissionRate + tempError * 0.002
    { s with
      FissionRate := clamp fissionRate 0 100
      TurbineOutput := clamp turbineOutput 0 100 }
  else s

/-- Heat/fuel consumption: line 134 writes the new condition *through the
pointer*, mutating the shared cell. -/
def hFuelHeatStep (delta : ℚ) (heap : List ℚ) (s : HReactorState) : List ℚ × HReactorState :=
  match s.FuelRodAddr with
  | some a =>
      match heap.get? a with
      | some cond =>
          if 0 < cond then
            let heatGenerated := s.FissionRate / 100 * HEAT_GENERATION_RATE
            let fuelConsumed := s.FissionRate / 100 * FUEL_CONSUMPTION_RATE * delta
            (heap.set a (rmax 0 (cond - fuelConsumed)),
             { s with Temperature := s.Temperature + heatGenerated * delta })
          else (heap, s)
      | none => (heap, s)
  | none => (heap, s)

/-- Turbine power and cooling, heap-explicit (identical formulas). -/
def hCoolStep (delta : ℚ) (s : HReactorState) : HReactorState :=
  let tempEfficiency := rmin 1 (s.Temperature / OVERHEAT_TEMP)
  let potentialPower := s.Temperature * (s.TurbineOutput / 100) * tempEfficiency
  let s3 := { s with PowerOutput := rmin MAX_POWER_OUTPUT (potentialPower * TURBINE_POWER_FACTOR) }
  let heatConsumedByTurbine := s3.PowerOutput / TURBINE_POWER_FACTOR
  let ambientCooling := s3.Temperature * AMBIENT_TEMP_DISSIPATION
  let s4 := { s3 with Temperature := s3.Temperature - (heatConsumedByTurbine + ambientCooling) * delta }
  if s4.Temperature < 0 then { s4 with Temperature := 0 } else s4

/-- `Update`, heap-explicit. -/
def HUpdate (u1 u2 delta : ℚ) (r : HReactor) : HReactor :=
  let r1 := hUpdateGridLoad u1 u2 delta r
  if r1.state.IsPoweredOn = false ∨ r1.state.Status &&& StatusScram ≠ 0 then
    { r1 with state := hUpdateStatus r1.heap (hShutdownStep delta r1.state) }
  else
    let s1 := hAutoStep r1.state
    let hp2 := hFuelHeatStep delta r1.heap s1
    { r1 with heap := hp2.1, state := hUpdateStatus hp2.1 (hCoolStep delta hp2.2) }

/-- C2 (refuted by the code): `Snapshot` returns a shallow copy whose fuel-rod
pointer aliases the live rod.  From the initial reactor, take a snapshot and
run one `advance(0.2)` (draws 1/2): the condition observable through the
already-returned snapshot changes from 100 to 3199943/32000 = 99.99821875 —
the snapshot is not immutable. -/
theorem snapshot_aliasing :
    readRod HNewReactor.heap (HSnapshot HNewReactor).FuelRodAddr = some 100 ∧
    readRod (HUpdate (1/2) (1/2) (1/5) HNewReactor).heap
        (HSnapshot HNewReactor).FuelRodAddr = some (3199943/32000) ∧
    readRod (HUpdate (1/2) (1/2) (1/5) HNewReactor).heap
        (HSnapshot HNewReactor).FuelRodAddr ≠
      readRod HNewReactor.heap (HSnapshot HNewReactor).FuelRodAddr := by
  have h1 : readRod HNewReactor.heap (HSnapshot HNewReactor).FuelRodAddr = some 100 := by
    norm_num [readRod, HNewReactor, HSnapshot, Option.bind, List.get?]
  have h2 : readRod (HUpdate (1/2) (1/2) (1/5) HNewReactor).heap
      (HSnapshot HNewReactor).FuelRodAddr = some (3199943/32000) := by
    norm_num [readRod, HUpdate, hUpdateGridLoad, hAutoStep, hFuelHeatStep, hCoolStep,
      hUpdateStatus, hShutdownStep, HNewReactor, HSnapshot, goRound, clamp, rmin, rmax,
      Option.bind, List.get?, List.set, OPTIMAL_TEMP, OVERHEAT_TEMP, MELTDOWN_TEMP, LOW_TEMP,
      MAX_POWER_OUTPUT, TURBINE_POWER_FACTOR, HEAT_GENERATION_RATE, FUEL_CONSUMPTION_RATE,
      AMBIENT_TEMP_DISSIPATION, LOW_FUEL_THRESHOLD, StatusScram, StatusMeltdown, StatusOverheat,
      StatusTempLow, StatusOutputHigh, StatusOutputLow, StatusFuelLow, StatusFuelOut]
  refine ⟨h1, h2, ?_⟩
  rw [h1, h2]
  intro hcontra
  injection hcontra with hval
  norm_num at hval

end Sim
